import Mathlib

/-!
Verification development for `beamconv`'s `src/beamconv/detector.py` (class
`Beam`).  The Python class is shallowly embedded: each property getter/setter
and each method becomes an executable Lean function; Python exceptions are
modelled with `Except PyErr`; mutation is explicit state passing on the
`Beam` structure.

Modelling conventions, justified against the source:
* Python floats are modelled by `ℚ`.  Every numeric formula the claims touch
  is exactly rational once `np.pi` cancels: the `fwhm` derived from `lmax`
  is `np.degrees(1.4 * 2 * pi / lmax) * 60 = 30240 / lmax` (float rounding
  abstracted away), and the `lmax` that line 158 would derive from `fwhm`
  is `int(2 * pi / radians(fwhm / 60) * 1.4) = int(30240 / fwhm)`.
* numpy coefficient arrays are lists of rationals (`RowQ`, rank-1) and lists
  of rows (`MatQ`, rank-2).  The external `tools` module (gauss_blm,
  get_copol_blm, scale_blm) is out of scope per the spec and is passed in as
  a `Tools` record of abstract functions.
* A cached `blm` is stored as `Option BlmRef` where `BlmRef = Nat × BlmVal`:
  the `Nat` is the Python object identity of the stored array object, so
  that aliasing (Python `is`) is expressible; functions that allocate a new
  array object take the fresh identity `oid` as an argument.
* A raised exception is an `Except.error`; the carried message mirrors the
  Python exception.  Note line 114 of the source spells `ValueErrror`, an
  undefined name, so that `raise` statement actually raises `NameError`;
  and line 156 reads the bare name `fwhm`, also undefined at module scope,
  so the `val is None` branch of the `lmax` setter raises `NameError`.
-/

/-- Rank-1 numpy array of floats, as a list of rationals. -/
abbrev RowQ := List ℚ

/-- Rank-2 numpy array, as a list of rows. -/
abbrev MatQ := List RowQ

/-- Python exceptions that the embedded code can raise. -/
inductive PyErr where
  | nameError (msg : String)
  | valueError (msg : String)
  | typeError (msg : String)
  | attributeError (msg : String)
  | runtimeError (msg : String)
  | indexError (msg : String)
  | ioError (msg : String)
deriving DecidableEq

/-- Value stored in the `blm` cache: either a single array object (result of
`tools.get_copol_blm`) or a Python tuple of three rows (line 310). -/
inductive BlmVal where
  | arr (m : MatQ)
  | triple (a b c : RowQ)
deriving DecidableEq

/-- A reference to a cached coefficient object: Python object identity
paired with the object's value.  Equal identity means the very same
storage (aliasing, Python `is`). -/
abbrev BlmRef := Nat × BlmVal

/-- Keyword arguments accepted by `tools.get_copol_blm` / `tools.scale_blm`
as forwarded by `Beam` (`c2_fwhm`, `deconv_q`, `normalize`).  `none` means
the keyword is absent from the call (the external default applies). -/
structure CopolOpts where
  c2_fwhm : Option ℚ
  deconv_q : Option Bool
  normalize : Option Bool
deriving DecidableEq

/-- The external `tools` module: black-box numerical collaborators. -/
structure Tools where
  gauss_blm : ℚ → Int → RowQ
  get_copol_blm : RowQ → CopolOpts → MatQ
  scale_blm : MatQ → CopolOpts → MatQ

/-- Content of a `.npy` file: a rank-1 or rank-2 array. -/
inductive NpFile where
  | rank1 (v : RowQ)
  | rank2 (m : MatQ)
deriving DecidableEq

/-- The file system seen by `np.load`: path to file content. -/
abbrev FileStore := String → Option NpFile

/-- np.atleast_2d (line 292): promote a rank-1 array to a single-row rank-2
array, leave rank-2 arrays unchanged. -/
def atleast_2d : NpFile → MatQ
  | NpFile.rank1 v => [v]
  | NpFile.rank2 m => m

/-- Plain attributes of a `Beam` (everything except the ghost-role fields). -/
structure BeamCore where
  az : ℚ
  el : ℚ
  polang : ℚ
  name : Option String
  pol : String
  btype : String
  dead : Bool
  amplitude : ℚ
  po_file : Option String
  eg_file : Option String
  cross_pol : Bool
  lmax : Int
  mmax : Int
  fwhm : ℚ
  deconv_q : Bool
  normalize : Bool
  blm : Option BlmRef
deriving DecidableEq

/-- A ghost beam as stored in its parent's `ghosts` list: its attributes
plus its `__ghost_idx` private attribute (`none` = attribute never set). -/
structure GhostBeam where
  core : BeamCore
  ghost_idx : Option Int
deriving DecidableEq

/-- Role-dependent private state: a main beam has `__ghosts` and
`__ghost_count`; a ghost has (at most) a `__ghost_idx`. -/
inductive Role where
  | main (ghosts : List GhostBeam) (ghost_count : Int)
  | ghost (ghost_idx : Option Int)
deriving DecidableEq

/-- The embedded `Beam` object. -/
structure Beam where
  core : BeamCore
  role : Role
deriving DecidableEq

/-- The `lmax` setter, lines 151-160.  Line 156 is `if val is None and fwhm:`
where `fwhm` is a bare, undefined name, so passing `None` raises `NameError`
before any derivation can happen; otherwise `lmax = max(val, 0)`. -/
def lmax_set (val : Option Int) : Except PyErr Int :=
  match val with
  | none => Except.error (PyErr.nameError ("name fwhm is not defined"))
  | some v => Except.ok (max v 0)

/-- Python truthiness of an optional float (`not val` in line 173). -/
def falsyQ : Option ℚ → Bool
  | none => true
  | some v => v == 0

/-- The `fwhm` setter, lines 166-177: if `val` is falsy and `lmax` is truthy,
derive `degrees(1.4 * 2 * pi / lmax) * 60 = 30240 / lmax`; otherwise
`np.abs(val)` (which raises `TypeError` on `None`). -/
def fwhm_set (val : Option ℚ) (lmax : Int) : Except PyErr ℚ :=
  if falsyQ val && !(lmax == 0) then
    Except.ok (30240 / (lmax : ℚ))
  else
    match val with
    | none => Except.error (PyErr.typeError ("bad operand type for abs"))
    | some v => Except.ok |v|

/-- The `mmax` setter, lines 183-189: minimum of the non-`None` entries of
`[mmax, self.lmax]`; `self.lmax` is always set by the time it runs. -/
def mmax_set (val : Option Int) (lmax : Int) : Int :=
  match val with
  | none => lmax
  | some m => min m lmax

/-- Keyword arguments of `Beam.__init__` (lines 14-18). -/
structure InitArgs where
  az : ℚ
  el : ℚ
  polang : ℚ
  name : Option String
  pol : String
  btype : String
  fwhm : Option ℚ
  lmax : Option Int
  mmax : Option Int
  dead : Bool
  ghost : Bool
  amplitude : ℚ
  po_file : Option String
  eg_file : Option String
  cross_pol : Bool
  deconv_q : Bool
  normalize : Bool
deriving DecidableEq

/-- The default keyword arguments of `Beam.__init__`. -/
def defaultArgs : InitArgs :=
  { az := 0, el := 0, polang := 0, name := none, pol := "A",
    btype := "Gaussian", fwhm := none, lmax := some 700, mmax := none,
    dead := false, ghost := false, amplitude := 1, po_file := none,
    eg_file := none, cross_pol := true, deconv_q := true, normalize := true }

/-- `Beam.__init__`, lines 72-95.  Attribute assignment order matters:
`self.lmax` (line 85) runs before `self.mmax` (86) and `self.fwhm` (87).
The `self.dead = dead` assignment at line 79 runs before `__ghosts` exists,
so its cascade loop hits `AttributeError` and is swallowed (lines 140-145).
`__blm` is never set here.  A non-ghost gets `__ghosts = []` and
`ghost_count = 0` (lines 93-95). -/
def Beam.init (a : InitArgs) : Except PyErr Beam := do
  let lmax ← lmax_set a.lmax
  let mmax := mmax_set a.mmax lmax
  let fwhm ← fwhm_set a.fwhm lmax
  Except.ok
    { core :=
        { az := a.az, el := a.el, polang := a.polang, name := a.name,
          pol := a.pol, btype := a.btype, dead := a.dead,
          amplitude := a.amplitude, po_file := a.po_file,
          eg_file := a.eg_file, cross_pol := a.cross_pol,
          lmax := lmax, mmax := mmax, fwhm := fwhm,
          deconv_q := a.deconv_q, normalize := a.normalize, blm := none },
      role := if a.ghost then Role.ghost none else Role.main [] 0 }

/-- Property getter `ghosts` (lines 101-103): reads `self.__ghosts` which a
ghost never has. -/
def Beam.ghostsGet (b : Beam) : Except PyErr (List GhostBeam) :=
  match b.role with
  | Role.main gs _ => Except.ok gs
  | Role.ghost _ =>
      Except.error (PyErr.attributeError ("Beam object has no attribute ghosts"))

/-- Property `ghosts` has no setter, so assigning it raises
`AttributeError` on every beam. -/
def Beam.ghostsSet (_b : Beam) (_gs : List GhostBeam) : Except PyErr Beam :=
  Except.error (PyErr.attributeError ("cannot set attribute"))

/-- Property getter `ghost_count` (lines 105-107). -/
def Beam.ghost_countGet (b : Beam) : Except PyErr Int :=
  match b.role with
  | Role.main _ c => Except.ok c
  | Role.ghost _ =>
      Except.error (PyErr.attributeError ("Beam object has no attribute ghost_count"))

/-- Property setter `ghost_count` (lines 109-114).  The `else` branch is
`raise ValueErrror(...)` -- `ValueErrror` is a misspelling and an undefined
name, so a ghost gets `NameError`, not the intended `ValueError`. -/
def Beam.ghost_countSet (b : Beam) (count : Int) : Except PyErr Beam :=
  match b.role with
  | Role.main gs _ => Except.ok { b with role := Role.main gs count }
  | Role.ghost _ =>
      Except.error (PyErr.nameError ("name ValueErrror is not defined"))

/-- Property getter `ghost_idx` (lines 116-121): reads `self.__ghost_idx`,
which exists only on a ghost whose index has been assigned. -/
def Beam.ghost_idxGet (b : Beam) : Except PyErr Int :=
  match b.role with
  | Role.ghost (some i) => Except.ok i
  | _ =>
      Except.error (PyErr.attributeError ("Beam object has no attribute ghost_idx"))

/-- Property setter `ghost_idx` (lines 123-128). -/
def Beam.ghost_idxSet (b : Beam) (v : Int) : Except PyErr Beam :=
  match b.role with
  | Role.ghost _ => Except.ok { b with role := Role.ghost (some v) }
  | Role.main _ _ =>
      Except.error (PyErr.valueError ("main beam cannot have ghost_idx"))

/-- Property setter `dead` (lines 134-145): sets `self.__dead`, then walks
`self.ghosts` writing each ghost's `__dead` directly (name mangling makes
`ghost.__dead` the same attribute the `dead` property reads); on a ghost the
`self.ghosts` read raises `AttributeError`, which is swallowed. -/
def Beam.deadSet (b : Beam) (val : Bool) : Beam :=
  { core := { b.core with dead := val },
    role :=
      match b.role with
      | Role.main gs c =>
          Role.main (gs.map fun g => { g with core := { g.core with dead := val } }) c
      | Role.ghost i => Role.ghost i }

/-- Assignment `self.lmax = val` on a live object (property setter). -/
def Beam.lmaxSet (b : Beam) (val : Option Int) : Except PyErr Beam := do
  let l ← lmax_set val
  Except.ok { b with core := { b.core with lmax := l } }

/-- Assignment `self.fwhm = val` on a live object (property setter). -/
def Beam.fwhmSet (b : Beam) (val : Option ℚ) : Except PyErr Beam := do
  let f ← fwhm_set val b.core.lmax
  Except.ok { b with core := { b.core with fwhm := f } }

/-- Assignment `self.mmax = val` on a live object (property setter). -/
def Beam.mmaxSet (b : Beam) (val : Option Int) : Beam :=
  { b with core := { b.core with mmax := mmax_set val b.core.lmax } }

/-- Assignment `self.btype = val`: plain attribute, no property. -/
def Beam.btypeSet (b : Beam) (val : String) : Beam :=
  { b with core := { b.core with btype := val } }

/-- Property setter `blm` (lines 227-229): stores the assigned object
reference in `self.__blm`. -/
def Beam.blmSet (b : Beam) (val : BlmRef) : Beam :=
  { b with core := { b.core with blm := some val } }

/-- `blm *= amplitude` on a rank-1 array. -/
def rowScale (a : ℚ) (v : RowQ) : RowQ := v.map fun x => a * x

/-- `blm *= amplitude` on a rank-2 array. -/
def matScale (a : ℚ) (m : MatQ) : MatQ := m.map (rowScale a)

/-- `Beam.gen_gaussian_blm` (lines 243-261): `tools.gauss_blm(fwhm, lmax)`,
scale by `amplitude` if it is not 1, expand with
`tools.get_copol_blm(blm, c2_fwhm=self.fwhm)`, set `btype` and cache the
result.  `oid` is the Python identity of the newly created array object. -/
def Beam.gen_gaussian_blm (t : Tools) (oid : Nat) (b : Beam) : Beam :=
  let blm0 := t.gauss_blm b.core.fwhm b.core.lmax
  let blm1 := if b.core.amplitude == 1 then blm0 else rowScale b.core.amplitude blm0
  let blm2 := t.get_copol_blm blm1
      { c2_fwhm := some b.core.fwhm, deconv_q := none, normalize := none }
  { b with core := { b.core with btype := "Gaussian", blm := some (oid, BlmVal.arr blm2) } }

/-- Filename resolution of `load_blm` (lines 287-291): `os.path.splitext`,
with `.npy` appended when there is no extension.  (Simplification: an
extension is detected by the presence of a dot; directory-component and
leading-dot subtleties of `splitext` do not matter to the claims.) -/
def resolveName (f : String) : String :=
  if f.toList.contains '.' then f else f ++ ".npy"

/-- Indexing `m[i]` on a rank-2 array. -/
def matRow (m : MatQ) (i : Nat) : Except PyErr RowQ :=
  match m[i]? with
  | some v => Except.ok v
  | none => Except.error (PyErr.indexError ("index out of bounds"))

/-- `Beam.load_blm` (lines 263-320).  `filename=None` makes
`os.path.splitext` raise `TypeError`; a path that the store cannot resolve
makes `np.load` raise an IO error.  The loaded array is promoted with
`atleast_2d`; if its leading dimension is 3 and `self.cross_pol` is set, the
`c2_fwhm` keyword is popped, `tools.scale_blm` is applied, the result is
scaled by `amplitude` (if not 1), and stored as an explicit tuple of its
three rows; otherwise only row 0 is kept, scaled by `amplitude` (if not 1),
and expanded with `tools.get_copol_blm` under the original keywords. -/
def Beam.load_blm (t : Tools) (fs : FileStore) (oid : Nat)
    (b : Beam) (filename : Option String) (kw : CopolOpts) : Except PyErr Beam := do
  let fname ← match filename with
    | none => Except.error (PyErr.typeError ("expected str, not NoneType"))
    | some f => Except.ok f
  let file ← match fs (resolveName fname) with
    | none => Except.error (PyErr.ioError fname)
    | some c => Except.ok c
  let m := atleast_2d file
  if m.length == 3 && b.core.cross_pol then
    let kw2 : CopolOpts := { kw with c2_fwhm := none }
    let scaled := t.scale_blm m kw2
    let scaled2 := if b.core.amplitude == 1 then scaled else matScale b.core.amplitude scaled
    let r0 ← matRow scaled2 0
    let r1 ← matRow scaled2 1
    let r2 ← matRow scaled2 2
    Except.ok { b with core := { b.core with blm := some (oid, BlmVal.triple r0 r1 r2) } }
  else
    let v0 ← matRow m 0
    let v1 := if b.core.amplitude == 1 then v0 else rowScale b.core.amplitude v0
    Except.ok { b with core := { b.core with blm := some (oid, BlmVal.arr (t.get_copol_blm v1 kw)) } }

/-- The bare attribute read `return self.__blm` (lines 209, 217, 222):
yields the cached reference together with the object it was read from. -/
def Beam.blmAttr (b : Beam) : Except PyErr (BlmRef × Beam) :=
  match b.core.blm with
  | some r => Except.ok (r, b)
  | none => Except.error (PyErr.attributeError ("Beam object has no attribute blm"))

/-- Property getter `blm` (lines 191-225): return the cached `__blm` if it
exists; otherwise dispatch on `btype` -- `Gaussian` synthesizes, `PO`/`EG`
load from `po_file`/`eg_file` with `deconv_q=self.deconv_q,
normalize=self.normalize`, anything else raises `ValueError`.  Returns the
reference that `return self.__blm` yields, together with the possibly
mutated object. -/
def Beam.blmGet (t : Tools) (fs : FileStore) (oid : Nat) (b : Beam) :
    Except PyErr (BlmRef × Beam) :=
  match b.core.blm with
  | some r => Except.ok (r, b)
  | none =>
    if b.core.btype == "Gaussian" then
      Beam.blmAttr (Beam.gen_gaussian_blm t oid b)
    else if b.core.btype == "PO" then do
      let b2 ← Beam.load_blm t fs oid b b.core.po_file
          { c2_fwhm := none, deconv_q := some b.core.deconv_q,
            normalize := some b.core.normalize }
      Beam.blmAttr b2
    else if b.core.btype == "EG" then do
      let b2 ← Beam.load_blm t fs oid b b.core.eg_file
          { c2_fwhm := none, deconv_q := some b.core.deconv_q,
            normalize := some b.core.normalize }
      Beam.blmAttr b2
    else
      Except.error (PyErr.valueError ("btype = " ++ b.core.btype ++ " not recognized"))

/-- Property deleter `blm` (lines 231-233): `del self.__blm`, raising
`AttributeError` when the cache is absent. -/
def Beam.blmDel (b : Beam) : Except PyErr Beam :=
  match b.core.blm with
  | some _ => Except.ok { b with core := { b.core with blm := none } }
  | none => Except.error (PyErr.attributeError ("Beam object has no attribute blm"))

/-- The `**kwargs` overrides accepted by `create_ghost`: `some x` means the
keyword was supplied with value `x`, `none` that it was absent (so the
copied parent default, or `Beam.__init__`'s own default, applies).  The
`name` keyword is popped and ignored (line 348) and `ghost` is forced to
`True` (line 371), so neither appears here. -/
structure Overrides where
  az : Option ℚ
  el : Option ℚ
  polang : Option ℚ
  pol : Option String
  btype : Option String
  fwhm : Option (Option ℚ)
  lmax : Option (Option Int)
  mmax : Option (Option Int)
  dead : Option Bool
  amplitude : Option ℚ
  po_file : Option (Option String)
  eg_file : Option (Option String)
  cross_pol : Option Bool
  deconv_q : Option Bool
  normalize : Option Bool
deriving DecidableEq

/-- An empty `**kwargs` dict. -/
def noOverrides : Overrides :=
  { az := none, el := none, polang := none, pol := none, btype := none,
    fwhm := none, lmax := none, mmax := none, dead := none,
    amplitude := none, po_file := none, eg_file := none,
    cross_pol := none, deconv_q := none, normalize := none }

/-- Ghost-name computation of `create_ghost` (lines 347-355): a truthy tag
is appended as `parent_name + '_' + tag` when the parent name is truthy,
used alone otherwise; a falsy tag (empty string or `None`) reuses the
parent's name. -/
def ghostName (parentName tag : Option String) : Option String :=
  match tag with
  | none => parentName
  | some t =>
      if t == "" then parentName
      else
        match parentName with
        | some p => if p == "" then some t else some (p ++ "_" ++ t)
        | none => some t

/-- The constructor options `create_ghost` passes to `Beam(**ghost_opts)`
(lines 358-372): `az, el, polang, name, pol, btype, fwhm, dead, lmax, mmax`
copied from the parent's current values, caller overrides taking
precedence; everything not in the defaults dict falls back to
`Beam.__init__` defaults; `ghost=True` forced. -/
def createArgs (b : Beam) (tag : Option String) (o : Overrides) : InitArgs :=
  { az := o.az.getD b.core.az,
    el := o.el.getD b.core.el,
    polang := o.polang.getD b.core.polang,
    name := ghostName b.core.name tag,
    pol := o.pol.getD b.core.pol,
    btype := o.btype.getD b.core.btype,
    fwhm := o.fwhm.getD (some b.core.fwhm),
    lmax := o.lmax.getD (some b.core.lmax),
    mmax := o.mmax.getD (some b.core.mmax),
    dead := o.dead.getD b.core.dead,
    ghost := true,
    amplitude := o.amplitude.getD 1,
    po_file := o.po_file.getD none,
    eg_file := o.eg_file.getD none,
    cross_pol := o.cross_pol.getD true,
    deconv_q := o.deconv_q.getD true,
    normalize := o.normalize.getD true }

/-- `Beam.create_ghost` (lines 322-378): raises `RuntimeError` on a ghost;
otherwise constructs a ghost from `createArgs`, assigns
`ghost_idx = self.ghost_count`, increments `ghost_count` and appends the
ghost to `ghosts`. -/
def Beam.create_ghost (b : Beam) (tag : Option String) (o : Overrides) :
    Except PyErr Beam := do
  match b.role with
  | Role.ghost _ => Except.error (PyErr.runtimeError ("Ghost cannot have ghosts"))
  | Role.main gs c =>
    let g ← Beam.init (createArgs b tag o)
    Except.ok { b with role := Role.main (gs ++ [{ core := g.core, ghost_idx := some c }]) (c + 1) }

/-- An argument that may or may not be a `Beam` (for the `isinstance` check
of `reuse_blm`, line 391). -/
inductive PyObj where
  | beamObj (b : Beam)
  | otherObj

/-- Lines 394-395 of `reuse_blm`: when both beams are ghosts,
`self.ghost_idx = partner.ghost_idx` -- the partner-side getter raises
`AttributeError` when the partner's index was never assigned; otherwise the
statement is skipped and `self` is unchanged. -/
def Beam.adoptIdx (b p : Beam) : Except PyErr Beam :=
  match b.role, p.role with
  | Role.ghost _, Role.ghost pidx =>
      match pidx with
      | some i => Except.ok { b with role := Role.ghost (some i) }
      | none =>
          Except.error (PyErr.attributeError ("Beam object has no attribute ghost_idx"))
  | _, _ => Except.ok b

/-- `Beam.reuse_blm` (lines 380-401): `TypeError` unless the partner is a
`Beam`; when both beams are ghosts, adopt the partner's `ghost_idx`
(`Beam.adoptIdx` above); then `self.blm = partner.blm` -- the right-hand
side goes through the lazy `blm` getter, possibly materializing the
partner's cache -- followed by plain copies of `btype` and `amplitude` and
property-setter assignments of `lmax` and `mmax`.  Returns
`(self, partner)` after the call. -/
def Beam.reuse_blm (t : Tools) (fs : FileStore) (oid : Nat)
    (b : Beam) (partner : PyObj) : Except PyErr (Beam × Beam) := do
  match partner with
  | PyObj.otherObj => Except.error (PyErr.typeError ("partner must be Beam object"))
  | PyObj.beamObj p =>
    let b1 ← Beam.adoptIdx b p
    let pr ← Beam.blmGet t fs oid p
    let p2 := pr.2
    let b2 := Beam.blmSet b1 pr.1
    let b3 := Beam.btypeSet b2 p2.core.btype
    let b4 ← Beam.lmaxSet b3 (some p2.core.lmax)
    let b5 := Beam.mmaxSet b4 (some p2.core.mmax)
    Except.ok ({ b5 with core := { b5.core with amplitude := p2.core.amplitude } }, p2)

/-- `Beam.delete_blm` (lines 403-426): `del self.blm` with `AttributeError`
swallowed, then `if any(self.ghosts) and del_ghosts_blm:` -- on a ghost the
`self.ghosts` read raises `AttributeError` *outside* any try block (the
self-cache was already cleared by then); on a main beam with a non-empty
ghosts list (beams are always truthy, so `any` means non-empty) and the
flag set, each ghost's cache is deleted with `AttributeError` swallowed. -/
def Beam.delete_blm (b : Beam) (del_ghosts_blm : Bool) : Except PyErr Beam :=
  let b1 : Beam := { b with core := { b.core with blm := none } }
  match b1.role with
  | Role.ghost _ =>
      Except.error (PyErr.attributeError ("Beam object has no attribute ghosts"))
  | Role.main gs c =>
    if !gs.isEmpty && del_ghosts_blm then
      Except.ok { b1 with
        role := Role.main (gs.map fun g => { g with core := { g.core with blm := none } }) c }
    else
      Except.ok b1

/-- A throwaway beam, used only as the default of the extraction helper. -/
def dummyBeam : Beam :=
  { core :=
      { az := 0, el := 0, polang := 0, name := none, pol := "A",
        btype := "Gaussian", dead := false, amplitude := 1,
        po_file := none, eg_file := none, cross_pol := true,
        lmax := 0, mmax := 0, fwhm := 0, deconv_q := true,
        normalize := true, blm := none },
    role := Role.main [] 0 }

/-- Extract the beam from a successful computation; used only to name
concrete evaluation results, and every use is paired with an equation
showing the computation did succeed. -/
def exOk (e : Except PyErr Beam) : Beam :=
  match e with
  | Except.ok b => b
  | Except.error _ => dummyBeam

/-- Concrete stand-ins for the external tools, used in witnesses. -/
def toolsEx : Tools :=
  { gauss_blm := fun f l => [f, (l : ℚ)],
    get_copol_blm := fun v _ => [v, v, v],
    scale_blm := fun m _ => m }

/-- An empty file system. -/
def fsEmpty : FileStore := fun _ => none

/-- Main-beam fixture: named, fwhm 30 arcmin, remaining defaults. -/
def bMain : Beam :=
  exOk (Beam.init { defaultArgs with name := some ("det1"), fwhm := some 30 })

/-- Ghost-beam fixture (constructed directly with ghost=True). -/
def gB : Beam :=
  exOk (Beam.init { defaultArgs with ghost := true, fwhm := some 30 })

/-- A concrete coefficient-object reference. -/
def refEx : BlmRef := (7, BlmVal.arr [[1, 2]])

/-- The main-beam fixture with `refEx` assigned to its `blm`. -/
def bCached : Beam := Beam.blmSet bMain refEx

/-- Inversion for a successful `Except` bind. -/
theorem except_bind_ok {ε α β : Type} {x : Except ε α} {f : α → Except ε β} {r : β}
    (h : x >>= f = Except.ok r) : ∃ a, x = Except.ok a ∧ f a = Except.ok r := by
  cases x with
  | error e => simp [Bind.bind, Except.bind] at h
  | ok a => exact ⟨a, rfl, by simpa [Bind.bind, Except.bind] using h⟩

/-- A failing computation makes the whole `Except` bind fail. -/
theorem except_bind_error {ε α β : Type} {x : Except ε α} {f : α → Except ε β} {e : ε}
    (h : x = Except.error e) : x >>= f = Except.error e := by
  subst h; rfl

/-- Fields of a successfully constructed `Beam` in terms of the keyword
arguments of `Beam.__init__`. -/
theorem init_ok_fields {a : InitArgs} {b : Beam} (h : Beam.init a = Except.ok b) :
    b.core.name = a.name ∧ b.core.dead = a.dead ∧ b.core.btype = a.btype ∧
    b.core.blm = none ∧
    b.role = (if a.ghost then Role.ghost none else Role.main [] 0) := by
  unfold Beam.init at h
  rcases except_bind_ok h with ⟨l, _, h2⟩
  rcases except_bind_ok h2 with ⟨f, _, h3⟩
  cases h3
  exact ⟨rfl, rfl, rfl, rfl, rfl⟩

/-- Inversion for a successful bare `__blm` attribute read. -/
theorem blmAttr_ok {b : Beam} {r : BlmRef} {b2 : Beam}
    (h : Beam.blmAttr b = Except.ok (r, b2)) :
    b2 = b ∧ b2.core.blm = some r := by
  unfold Beam.blmAttr at h
  cases hb : b.core.blm with
  | some r0 => rw [hb] at h; cases h; exact ⟨rfl, hb⟩
  | none => rw [hb] at h; cases h

/-- A beam produced by a successful `blm` getter call carries the returned
reference in its cache (`return self.__blm` returns the cached object). -/
theorem blmGet_ok_cached {t : Tools} {fs : FileStore} {oid : Nat} {b : Beam}
    {r : BlmRef} {b2 : Beam} (h : Beam.blmGet t fs oid b = Except.ok (r, b2)) :
    b2.core.blm = some r := by
  unfold Beam.blmGet at h
  split at h
  next r0 heq =>
    cases h
    exact heq
  next heq =>
    split at h
    · exact (blmAttr_ok h).2
    · split at h
      · rcases except_bind_ok h with ⟨bl, _, h2⟩
        exact (blmAttr_ok h2).2
      · split at h
        · rcases except_bind_ok h with ⟨bl, _, h2⟩
          exact (blmAttr_ok h2).2
        · cases h


/-- C1: the claim says constructing a Beam with lmax=None and fwhm=F>0
succeeds and derives lmax from fwhm; in the code the None branch of the
lmax setter (line 156, `if val is None and fwhm:`) evaluates the undefined
bare name `fwhm` and raises NameError, so the construction fails --
contradicting the setter's own docstring (line 45: `If None, use
1.4*2*pi/fwhm`).  The other half of the claim does hold: a supplied value
v sets lmax = max(v, 0). -/
theorem C1_lmax_none_raises_nameError :
    Beam.init { defaultArgs with lmax := none, fwhm := some 30 } =
      Except.error (PyErr.nameError ("name fwhm is not defined")) ∧
    lmax_set none = Except.error (PyErr.nameError ("name fwhm is not defined")) ∧
    lmax_set (some 5) = Except.ok 5 ∧
    lmax_set (some (-3)) = Except.ok 0 :=
  ⟨rfl, rfl, rfl, rfl⟩

/-- C3: the claim says each invalid-role operation fails with a validation
error; setting ghost_count on a ghost actually raises NameError because
line 114 misspells ValueError as `ValueErrror`.  The companion operations
raise as implemented: ValueError for setting ghost_idx on a main beam,
AttributeError for reading it, RuntimeError for create_ghost on a ghost. -/
theorem C3_ghost_count_setter_nameError :
    Beam.ghost_countSet gB 0 =
      Except.error (PyErr.nameError ("name ValueErrror is not defined")) ∧
    Beam.ghost_idxSet bMain 0 =
      Except.error (PyErr.valueError ("main beam cannot have ghost_idx")) ∧
    Beam.ghost_idxGet bMain =
      Except.error (PyErr.attributeError ("Beam object has no attribute ghost_idx")) ∧
    Beam.create_ghost gB (some ("g")) noOverrides =
      Except.error (PyErr.runtimeError ("Ghost cannot have ghosts")) :=
  ⟨rfl, rfl, rfl, rfl⟩

/-- C5: the claimed fwhm-to-lmax-to-fwhm round trip cannot even start: its
first step, constructing with fwhm=10 and lmax=None, raises NameError in
the lmax setter (undefined bare name `fwhm`, line 156), instead of deriving
lmax as the docstring promises. -/
theorem C5_roundtrip_first_step_raises :
    Beam.init { defaultArgs with lmax := none, fwhm := some 10 } =
      Except.error (PyErr.nameError ("name fwhm is not defined")) := rfl

/-- C2: once the blm cache is populated, every read returns the cached
reference unchanged and leaves the beam untouched, even after fwhm, lmax or
btype are reassigned; those setters never touch the cache. -/
theorem C2_blm_cache_persists (t : Tools) (fs : FileStore) (oid : Nat)
    (b : Beam) (r : BlmRef) (h : b.core.blm = some r) :
    Beam.blmGet t fs oid b = Except.ok (r, b) ∧
    (∀ s : String, (Beam.btypeSet b s).core.blm = some r ∧
      Beam.blmGet t fs oid (Beam.btypeSet b s) = Except.ok (r, Beam.btypeSet b s)) ∧
    (∀ (v : Option Int) (b2 : Beam), Beam.lmaxSet b v = Except.ok b2 →
      b2.core.blm = some r ∧ Beam.blmGet t fs oid b2 = Except.ok (r, b2)) ∧
    (∀ (v : Option ℚ) (b2 : Beam), Beam.fwhmSet b v = Except.ok b2 →
      b2.core.blm = some r ∧ Beam.blmGet t fs oid b2 = Except.ok (r, b2)) := by
  have hr : ∀ b2 : Beam, b2.core.blm = some r →
      Beam.blmGet t fs oid b2 = Except.ok (r, b2) := by
    intro b2 h2
    unfold Beam.blmGet
    rw [h2]
  refine ⟨hr b h, ?_, ?_, ?_⟩
  · intro s
    have hs : (Beam.btypeSet b s).core.blm = some r := h
    exact ⟨hs, hr _ hs⟩
  · intro v b2 hb
    unfold Beam.lmaxSet at hb
    rcases except_bind_ok hb with ⟨l, _, h2⟩
    cases h2
    exact ⟨h, hr _ h⟩
  · intro v b2 hb
    unfold Beam.fwhmSet at hb
    rcases except_bind_ok hb with ⟨f, _, h2⟩
    cases h2
    exact ⟨h, hr _ h⟩

/-- C2 witness: the cached fixture returns its cache unchanged. -/
theorem C2_blm_cache_persists_witness :
    bCached.core.blm = some refEx ∧
    Beam.blmGet toolsEx fsEmpty 0 bCached = Except.ok (refEx, bCached) :=
  ⟨rfl, (C2_blm_cache_persists toolsEx fsEmpty 0 bCached refEx rfl).1⟩

/-- Inversion for a successful `create_ghost` call on a main beam. -/
theorem create_ghost_ok {b : Beam} {gs : List GhostBeam} {c : Int}
    {tag : Option String} {o : Overrides} {b2 : Beam}
    (h : b.role = Role.main gs c)
    (hc : Beam.create_ghost b tag o = Except.ok b2) :
    ∃ g : Beam, Beam.init (createArgs b tag o) = Except.ok g ∧
      b2 = { b with
        role := Role.main (gs ++ [{ core := g.core, ghost_idx := some c }]) (c + 1) } := by
  unfold Beam.create_ghost at hc
  split at hc
  next i heq => rw [h] at heq; cases heq
  next gs0 c0 heq =>
    rw [h] at heq
    cases heq
    rcases except_bind_ok hc with ⟨g, hg, h2⟩
    cases h2
    exact ⟨g, hg, rfl⟩

/-- A truthy tag is appended to a truthy parent name with an underscore. -/
theorem ghostName_append {p tg : String} (htg : tg ≠ "") (hp : p ≠ "") :
    ghostName (some p) (some tg) = some (p ++ "_" ++ tg) := by
  simp [ghostName, htg, hp]

/-- A truthy tag alone names the ghost when the parent has no name. -/
theorem ghostName_no_parent {tg : String} (htg : tg ≠ "") :
    ghostName none (some tg) = some tg := by
  simp [ghostName, htg]

/-- A falsy tag reuses the parent's name unchanged. -/
theorem ghostName_falsy (pn : Option String) (tag : Option String)
    (h : tag = none ∨ tag = some ("")) : ghostName pn tag = pn := by
  rcases h with h | h <;> subst h <;> simp [ghostName]

/-- C4: setting dead on a main beam cascades the value onto the beam itself
and onto every ghost currently owned; a ghost created afterwards receives
the parent's dead value as of its creation unless the override supplies its
own, and the ghosts list after the creation is exactly the cascaded old
list plus the new ghost (so the earlier assignment cannot have touched the
new ghost). -/
theorem C4_dead_cascade (b : Beam) (gs : List GhostBeam) (c : Int) (v : Bool)
    (h : b.role = Role.main gs c) :
    (Beam.deadSet b v).core.dead = v ∧
    (Beam.deadSet b v).role =
      Role.main (gs.map fun g0 => { g0 with core := { g0.core with dead := v } }) c ∧
    (∀ g : GhostBeam,
      g ∈ (gs.map fun g0 => { g0 with core := { g0.core with dead := v } }) →
      g.core.dead = v) ∧
    (∀ (tag : Option String) (o : Overrides) (b2 : Beam),
      Beam.create_ghost (Beam.deadSet b v) tag o = Except.ok b2 →
      ∃ gn : GhostBeam,
        b2.role = Role.main
          ((gs.map fun g0 => { g0 with core := { g0.core with dead := v } }) ++ [gn])
          (c + 1) ∧
        gn.core.dead = o.dead.getD v ∧
        gn.ghost_idx = some c) := by
  have hrole : (Beam.deadSet b v).role =
      Role.main (gs.map fun g0 => { g0 with core := { g0.core with dead := v } }) c := by
    unfold Beam.deadSet
    rw [h]
  refine ⟨rfl, hrole, ?_, ?_⟩
  · intro g hg
    rcases List.mem_map.mp hg with ⟨g0, _, rfl⟩
    rfl
  · intro tag o b2 hc
    rcases create_ghost_ok hrole hc with ⟨g, hg, rfl⟩
    refine ⟨{ core := g.core, ghost_idx := some c }, rfl, ?_, rfl⟩
    have hd := (init_ok_fields hg).2.1
    simpa [createArgs, Beam.deadSet] using hd

/-- The beam fixture after `bMain.dead = True`. -/
def bDead : Beam := Beam.deadSet bMain true

/-- The dead fixture after creating a ghost with no overrides. -/
def bDeadG : Beam := exOk (Beam.create_ghost bDead (some ("g2")) noOverrides)

/-- C4 witness: the cascade and the ghost-creation clause at the fixture. -/
theorem C4_dead_cascade_witness :
    bMain.role = Role.main [] 0 ∧
    Beam.create_ghost bDead (some ("g2")) noOverrides = Except.ok bDeadG ∧
    bDead.core.dead = true ∧
    (∃ gn : GhostBeam,
      bDeadG.role = Role.main
        (([] : List GhostBeam).map (fun g0 => { g0 with core := { g0.core with dead := true } }) ++ [gn])
        (0 + 1) ∧
      gn.core.dead = noOverrides.dead.getD true ∧
      gn.ghost_idx = some 0) := by
  refine ⟨rfl, rfl, (C4_dead_cascade bMain [] 0 true rfl).1, ?_⟩
  exact (C4_dead_cascade bMain [] 0 true rfl).2.2.2 (some ("g2")) noOverrides bDeadG rfl

/-- C6: create_ghost on a main beam appends exactly one ghost carrying
ghost_idx = the parent's previous ghost_count, increments the count, and
names the ghost parent_name + underscore + tag for a truthy tag (just the
tag when the parent has no name; the parent's name unchanged for a falsy
tag); starting from count 0, two sequential calls hand out indices 0 and 1
and leave the count at 2. -/
theorem C6_create_ghost (b : Beam) (gs : List GhostBeam) (c : Int)
    (tag : Option String) (o : Overrides) (b2 : Beam)
    (h : b.role = Role.main gs c)
    (hc : Beam.create_ghost b tag o = Except.ok b2) :
    ∃ gn : GhostBeam,
      b2.role = Role.main (gs ++ [gn]) (c + 1) ∧
      gn.ghost_idx = some c ∧
      gn.core.name = ghostName b.core.name tag ∧
      (∀ tg p : String, tag = some tg → tg ≠ "" → b.core.name = some p → p ≠ "" →
        gn.core.name = some (p ++ "_" ++ tg)) ∧
      (∀ tg : String, tag = some tg → tg ≠ "" → b.core.name = none →
        gn.core.name = some tg) ∧
      ((tag = none ∨ tag = some ("")) → gn.core.name = b.core.name) ∧
      (c = 0 → ∀ (tag2 : Option String) (o2 : Overrides) (b3 : Beam),
        Beam.create_ghost b2 tag2 o2 = Except.ok b3 →
        ∃ gn2 : GhostBeam,
          b3.role = Role.main ((gs ++ [gn]) ++ [gn2]) 2 ∧
          gn.ghost_idx = some 0 ∧ gn2.ghost_idx = some 1) := by
  rcases create_ghost_ok h hc with ⟨g, hg, rfl⟩
  have hname : g.core.name = ghostName b.core.name tag := (init_ok_fields hg).1
  refine ⟨{ core := g.core, ghost_idx := some c }, rfl, rfl, hname, ?_, ?_, ?_, ?_⟩
  · intro tg p ht htg hp hpt
    rw [hname, ht, hp]
    exact ghostName_append htg hpt
  · intro tg ht htg hp
    rw [hname, ht, hp]
    exact ghostName_no_parent htg
  · intro hfalsy
    rw [hname, ghostName_falsy b.core.name tag hfalsy]
  · rintro rfl tag2 o2 b3 hc2
    rcases create_ghost_ok (b := _) rfl hc2 with ⟨g2, hg2, rfl⟩
    exact ⟨{ core := g2.core, ghost_idx := some (0 + 1) }, rfl, rfl, rfl⟩

/-- The main fixture after one ghost creation with tag g1. -/
def bMainG : Beam := exOk (Beam.create_ghost bMain (some ("g1")) noOverrides)

/-- C6 witness: one creation on the named fixture with a truthy tag. -/
theorem C6_create_ghost_witness :
    bMain.role = Role.main [] 0 ∧
    Beam.create_ghost bMain (some ("g1")) noOverrides = Except.ok bMainG ∧
    (∃ gn : GhostBeam,
      bMainG.role = Role.main ([] ++ [gn]) (0 + 1) ∧ gn.ghost_idx = some 0 ∧
      gn.core.name = some ("det1" ++ "_" ++ "g1")) := by
  refine ⟨rfl, rfl, ?_⟩
  rcases C6_create_ghost bMain [] 0 (some ("g1")) noOverrides bMainG rfl rfl
    with ⟨gn, h1, h2, _, h4, _⟩
  exact ⟨gn, h1, h2, h4 ("g1") ("det1") rfl (by decide) rfl (by decide)⟩

/-- Extract the pair returned by a successful `reuse_blm` call. -/
def exOk2 (e : Except PyErr (Beam × Beam)) : Beam × Beam :=
  match e with
  | Except.ok pr => pr
  | Except.error _ => (dummyBeam, dummyBeam)

/-- A beam whose lmax was lowered to 100 after mmax settled at 700. -/
def b1mm : Beam :=
  exOk (Beam.lmaxSet (exOk (Beam.init { defaultArgs with fwhm := some 30 })) (some 100))

/-- The result pair of `bMain.reuse_blm(b1mm)`. -/
def reuse1 : Beam × Beam :=
  exOk2 (Beam.reuse_blm toolsEx fsEmpty 5 bMain (PyObj.beamObj b1mm))

/-- C7 counterexample: reuse_blm does not copy mmax verbatim -- it runs the
partner's mmax through the mmax setter, which clips it at the (just copied)
lmax.  With a partner holding lmax 100 and mmax 700 the caller ends up with
mmax 100, not the partner's 700. -/
theorem C7_mmax_not_copied :
    b1mm.core.lmax = 100 ∧ b1mm.core.mmax = 700 ∧
    Beam.reuse_blm toolsEx fsEmpty 5 bMain (PyObj.beamObj b1mm) =
      Except.ok (reuse1.1, reuse1.2) ∧
    reuse1.2.core.mmax = 700 ∧
    reuse1.1.core.mmax = 100 ∧
    reuse1.1.core.mmax ≠ reuse1.2.core.mmax :=
  ⟨rfl, rfl, rfl, rfl, rfl, by decide⟩

/-- C7 amended: after b2.reuse_blm(b1), b2 aliases b1's coefficient storage
(the very same object reference) and copies btype and amplitude; lmax is
copied through the lmax setter (so equals max(b1.lmax, 0), i.e. b1.lmax
whenever that is nonnegative, which every stored lmax is); mmax is copied
through the mmax setter and therefore equals min(b1.mmax, b1.lmax) -- equal
to b1.mmax only when b1.mmax did not exceed b1.lmax; when both beams are
ghosts the partner's ghost_idx is adopted; a non-Beam partner raises
TypeError. -/
theorem C7_reuse_blm_amended (t : Tools) (fs : FileStore) (oid : Nat)
    (b p b2 p2 : Beam)
    (hc : Beam.reuse_blm t fs oid b (PyObj.beamObj p) = Except.ok (b2, p2)) :
    (∃ r : BlmRef, p2.core.blm = some r ∧ b2.core.blm = some r) ∧
    b2.core.btype = p2.core.btype ∧
    b2.core.lmax = max p2.core.lmax 0 ∧
    (0 ≤ p2.core.lmax → b2.core.lmax = p2.core.lmax) ∧
    b2.core.mmax = min p2.core.mmax (max p2.core.lmax 0) ∧
    b2.core.amplitude = p2.core.amplitude ∧
    (∀ (bi pidx : Option Int), b.role = Role.ghost bi → p.role = Role.ghost pidx →
      b2.role = Role.ghost pidx) ∧
    (∀ q : Beam, Beam.reuse_blm t fs oid q PyObj.otherObj =
      Except.error (PyErr.typeError ("partner must be Beam object"))) := by
  unfold Beam.reuse_blm at hc
  rcases except_bind_ok hc with ⟨b1, hb1, hc2⟩
  rcases except_bind_ok hc2 with ⟨pr, hpr, hc3⟩
  rcases except_bind_ok hc3 with ⟨b4, hb4, hc4⟩
  unfold Beam.lmaxSet at hb4
  rcases except_bind_ok hb4 with ⟨l, hl, hb5⟩
  unfold lmax_set at hl
  cases hl
  cases hb5
  cases hc4
  obtain ⟨r, pN⟩ := pr
  have hcache : pN.core.blm = some r := blmGet_ok_cached hpr
  refine ⟨⟨r, hcache, rfl⟩, rfl, rfl, ?_, rfl, rfl, ?_, ?_⟩
  · intro h0
    simp [Beam.mmaxSet, max_eq_left h0]
  · intro bi pidx hbr hpr2
    unfold Beam.adoptIdx at hb1
    rw [hbr, hpr2] at hb1
    cases pidx with
    | some i =>
        cases hb1
        rfl
    | none => cases hb1
  · intro q
    rfl

/-- C7 witness: the amended statement at the concrete fixture pair. -/
theorem C7_reuse_blm_amended_witness :
    Beam.reuse_blm toolsEx fsEmpty 5 bMain (PyObj.beamObj b1mm) =
      Except.ok (reuse1.1, reuse1.2) ∧
    (∃ r : BlmRef, reuse1.2.core.blm = some r ∧ reuse1.1.core.blm = some r) ∧
    reuse1.1.core.btype = reuse1.2.core.btype ∧
    reuse1.1.core.mmax = min reuse1.2.core.mmax (max reuse1.2.core.lmax 0) := by
  have h := C7_reuse_blm_amended toolsEx fsEmpty 5 bMain b1mm reuse1.1 reuse1.2 rfl
  exact ⟨rfl, h.1, h.2.1, h.2.2.2.2.1⟩

/-- C8 counterexample: delete_blm invoked on a ghost Beam is not silently
ignored: the `any(self.ghosts)` read at line 421 sits outside the try block
and raises AttributeError on a ghost, cache or no cache. -/
theorem C8_delete_on_ghost_raises :
    gB.core.blm = none ∧
    Beam.delete_blm gB true =
      Except.error (PyErr.attributeError ("Beam object has no attribute ghosts")) :=
  ⟨rfl, rfl⟩

/-- C8 amended: on a main beam delete_blm always succeeds, clearing the
cache (no error when it is absent) and, when the flag is set and ghosts
exist, clearing each ghost's cache (a ghost with no cache is skipped
silently); invoked on a ghost Beam it instead raises AttributeError at the
ghosts access. -/
theorem C8_delete_blm_amended (b : Beam) (flag : Bool) :
    (∀ (gs : List GhostBeam) (c : Int), b.role = Role.main gs c →
      Beam.delete_blm b flag = Except.ok
        { core := { b.core with blm := none },
          role := Role.main
            (if !gs.isEmpty && flag then
              gs.map fun g => { g with core := { g.core with blm := none } }
            else gs) c }) ∧
    (∀ i : Option Int, b.role = Role.ghost i →
      Beam.delete_blm b flag =
        Except.error (PyErr.attributeError ("Beam object has no attribute ghosts"))) := by
  obtain ⟨bc, br⟩ := b
  constructor
  · intro gs c h
    simp only at h
    subst h
    unfold Beam.delete_blm
    split
    next hcond => simp [hcond]
    next hcond => simp [hcond]
  · intro i h
    simp only at h
    subst h
    rfl

/-- The ghosts list of the one-ghost fixture. -/
def gsOfMainG : List GhostBeam :=
  match bMainG.role with
  | Role.main gs _ => gs
  | Role.ghost _ => []

/-- C8 witness: deleting on the one-ghost fixture with the flag set. -/
theorem C8_delete_blm_amended_witness :
    bMainG.role = Role.main gsOfMainG 1 ∧
    Beam.delete_blm bMainG true = Except.ok
      { core := { bMainG.core with blm := none },
        role := Role.main
          (if !gsOfMainG.isEmpty && true then
            gsOfMainG.map fun g => { g with core := { g.core with blm := none } }
          else gsOfMainG) 1 } :=
  ⟨rfl, (C8_delete_blm_amended bMainG true).1 gsOfMainG 1 rfl⟩

/-- C9: load_blm stores an explicit (co, spin-2, spin+2) triplet -- the
external scaling utility applied with c2_fwhm popped, then amplitude --
exactly when the promoted array has leading dimension 3 and the beam's
cross_pol flag is set, bypassing the co-polar expander; in every other case
it keeps only row 0, scales it by amplitude, and synthesizes the spin
components with the co-polar expander under the caller's original
keywords. -/
theorem C9_load_blm_branches (t : Tools) (fs : FileStore) (oid : Nat) (b : Beam)
    (f : String) (file : NpFile) (kw : CopolOpts)
    (hf : fs (resolveName f) = some file) :
    ((atleast_2d file).length = 3 → b.core.cross_pol = true →
      ∀ r0 r1 r2 : RowQ,
        matRow (if b.core.amplitude == 1
            then t.scale_blm (atleast_2d file) { kw with c2_fwhm := none }
            else matScale b.core.amplitude
              (t.scale_blm (atleast_2d file) { kw with c2_fwhm := none })) 0 =
          Except.ok r0 →
        matRow (if b.core.amplitude == 1
            then t.scale_blm (atleast_2d file) { kw with c2_fwhm := none }
            else matScale b.core.amplitude
              (t.scale_blm (atleast_2d file) { kw with c2_fwhm := none })) 1 =
          Except.ok r1 →
        matRow (if b.core.amplitude == 1
            then t.scale_blm (atleast_2d file) { kw with c2_fwhm := none }
            else matScale b.core.amplitude
              (t.scale_blm (atleast_2d file) { kw with c2_fwhm := none })) 2 =
          Except.ok r2 →
        Beam.load_blm t fs oid b (some f) kw = Except.ok
          { b with core := { b.core with
              blm := some (oid, BlmVal.triple r0 r1 r2) } }) ∧
    (¬((atleast_2d file).length = 3 ∧ b.core.cross_pol = true) →
      ∀ v0 : RowQ, matRow (atleast_2d file) 0 = Except.ok v0 →
        Beam.load_blm t fs oid b (some f) kw = Except.ok
          { b with core := { b.core with
              blm := some (oid, BlmVal.arr (t.get_copol_blm
                (if b.core.amplitude == 1 then v0
                 else rowScale b.core.amplitude v0) kw)) } }) := by
  constructor
  · intro hlen hcp r0 r1 r2 h0 h1 h2
    have hcond : ((atleast_2d file).length == 3 && b.core.cross_pol) = true := by
      simp [hlen, hcp]
    simp only [Beam.load_blm, hf, hcond, h0, h1, h2, Bind.bind, Except.bind, if_true]
  · intro hnot v0 h0
    have hcond : ((atleast_2d file).length == 3 && b.core.cross_pol) = false := by
      cases hcp : b.core.cross_pol with
      | false => simp [hcp]
      | true =>
          have hlen : (atleast_2d file).length ≠ 3 := fun hl => hnot ⟨hl, hcp⟩
          simp [hlen]
    simp only [Beam.load_blm, hf, hcond, h0, Bind.bind, Except.bind, if_false,
      Bool.false_eq_true]

/-- A file store with one explicit-triplet file and one co-polar-only file. -/
def fs3 : FileStore := fun s =>
  if s == ("f3.npy") then some (NpFile.rank2 [[1, 2], [3, 4], [5, 6]])
  else if s == ("f1.npy") then some (NpFile.rank1 [7, 8])
  else none

/-- The keyword arguments used in the C9 witness. -/
def kw0 : CopolOpts :=
  { c2_fwhm := some 30, deconv_q := some true, normalize := some true }

/-- C9 witness: both branches exercised on concrete files. -/
theorem C9_load_blm_branches_witness :
    fs3 (resolveName ("f3")) = some (NpFile.rank2 [[1, 2], [3, 4], [5, 6]]) ∧
    Beam.load_blm toolsEx fs3 9 bMain (some ("f3")) kw0 = Except.ok
      { bMain with core := { bMain.core with
          blm := some (9, BlmVal.triple [1, 2] [3, 4] [5, 6]) } } ∧
    fs3 (resolveName ("f1")) = some (NpFile.rank1 [7, 8]) ∧
    Beam.load_blm toolsEx fs3 11 bMain (some ("f1")) kw0 = Except.ok
      { bMain with core := { bMain.core with
          blm := some (11, BlmVal.arr (toolsEx.get_copol_blm [7, 8] kw0)) } } := by
  refine ⟨rfl, ?_, rfl, ?_⟩
  · exact (C9_load_blm_branches toolsEx fs3 9 bMain ("f3")
      (NpFile.rank2 [[1, 2], [3, 4], [5, 6]]) kw0 rfl).1 rfl rfl
      [1, 2] [3, 4] [5, 6] rfl rfl rfl
  · exact (C9_load_blm_branches toolsEx fs3 11 bMain ("f1")
      (NpFile.rank1 [7, 8]) kw0 rfl).2 (by decide) [7, 8] rfl

/-- C10: reuse_blm reads the partner's blm through the lazy getter: on a
successful call with an initially absent partner cache, the partner comes
back materialized (its cache newly populated, so the partner object is
changed) and the caller holds that very reference; a partner-getter error
propagates out of reuse_blm whenever the idx-adoption step before it
succeeds; and an unrecognized partner btype produces exactly the getter's
ValueError. -/
theorem C10_reuse_reads_getter (t : Tools) (fs : FileStore) (oid : Nat)
    (b p : Beam) (hnone : p.core.blm = none) :
    (∀ b2 p2 : Beam,
      Beam.reuse_blm t fs oid b (PyObj.beamObj p) = Except.ok (b2, p2) →
      (∃ r : BlmRef, p2.core.blm = some r ∧ b2.core.blm = some r) ∧ p2 ≠ p) ∧
    (∀ e : PyErr, Beam.blmGet t fs oid p = Except.error e →
      ∀ b1 : Beam, Beam.adoptIdx b p = Except.ok b1 →
      Beam.reuse_blm t fs oid b (PyObj.beamObj p) = Except.error e) ∧
    (p.core.btype ≠ "Gaussian" → p.core.btype ≠ "PO" → p.core.btype ≠ "EG" →
      Beam.blmGet t fs oid p =
        Except.error (PyErr.valueError ("btype = " ++ p.core.btype ++ " not recognized"))) := by
  refine ⟨?_, ?_, ?_⟩
  · intro b2 p2 hc
    unfold Beam.reuse_blm at hc
    rcases except_bind_ok hc with ⟨b1, hb1, hc2⟩
    rcases except_bind_ok hc2 with ⟨pr, hpr, hc3⟩
    rcases except_bind_ok hc3 with ⟨b4, hb4, hc4⟩
    cases hc4
    obtain ⟨r, pN⟩ := pr
    have hcache : pN.core.blm = some r := blmGet_ok_cached hpr
    refine ⟨⟨r, hcache, ?_⟩, ?_⟩
    · unfold Beam.lmaxSet at hb4
      rcases except_bind_ok hb4 with ⟨l, hl, hb5⟩
      cases hb5
      rfl
    · intro heq
      have heq2 : pN = p := heq
      rw [heq2, hnone] at hcache
      cases hcache
  · intro e he b1 hb1
    simp only [Beam.reuse_blm, Bind.bind, Except.bind, hb1, he]
  · intro h1 h2 h3
    simp [Beam.blmGet, hnone, h1, h2, h3]

/-- A beam whose btype no branch of the getter recognizes. -/
def pBad : Beam := Beam.btypeSet bMain ("foo")

/-- C10 witness: the unrecognized-btype error propagates, and the concrete
successful reuse materialized its partner. -/
theorem C10_reuse_reads_getter_witness :
    bMain.core.blm = none ∧ pBad.core.blm = none ∧ b1mm.core.blm = none ∧
    Beam.blmGet toolsEx fsEmpty 3 pBad =
      Except.error (PyErr.valueError ("btype = " ++ pBad.core.btype ++ " not recognized")) ∧
    Beam.reuse_blm toolsEx fsEmpty 3 bMain (PyObj.beamObj pBad) =
      Except.error (PyErr.valueError ("btype = " ++ pBad.core.btype ++ " not recognized")) ∧
    (∃ r : BlmRef, reuse1.2.core.blm = some r ∧ reuse1.1.core.blm = some r) ∧
    reuse1.2 ≠ b1mm := by
  have h10a := C10_reuse_reads_getter toolsEx fsEmpty 3 bMain pBad rfl
  have h10b := C10_reuse_reads_getter toolsEx fsEmpty 5 bMain b1mm rfl
  have hbt := h10a.2.2 (by decide) (by decide) (by decide)
  have hsucc := h10b.1 reuse1.1 reuse1.2 rfl
  exact ⟨rfl, rfl, rfl, hbt, h10a.2.1 _ hbt bMain rfl, hsucc.1, hsucc.2⟩
